import Mathlib

/-!
Verification of the tempeh route-registry and request-builder layer, as
documented by this repository. The library core itself is not part of the
repository (only documentation pages and example snippets are), so the
definitions below are modelled from the specification of that core and from
the documented examples.
-/

set_option maxHeartbeats 1000000

namespace Tempeh

/-- Modelled from the spec: JSON-like runtime values flowing through the
schema validator (params objects, search params, request/response bodies). -/
inductive JsonValue where
  | str (s : String)
  | num (n : Int)
  | boolean (b : Bool)
  | obj (fields : List (String × JsonValue))
  | arr (items : List JsonValue)
  | null

/-- Modelled from the spec: one structured validation error entry, a
field-path plus message pair (section 6, SchemaValidator contract). -/
structure FieldError where
  path : String
  message : String
deriving DecidableEq

/-- Modelled from the spec: the Outcome tagged union returned by safe-mode
accessors — exactly one of success value or structured error. -/
inductive Outcome (ε α : Type) where
  | success (value : α)
  | failure (error : ε)

/-- The throwing entry point unwraps an Outcome into the caller's
error-propagation mechanism, modelled by Except (spec section 9). -/
def Outcome.toExcept : Outcome ε α → Except ε α
  | .success v => .ok v
  | .failure e => .error e

/-- Modelled from the spec: the schema language used in the documented
examples — string, number, enum, optional, declared default, and the
string-piped-to-number coercion from the search-params example. -/
inductive FieldSchema where
  | str
  | num
  | boolS
  | enumS (choices : List String)
  | optionalS (s : FieldSchema)
  | withDefault (s : FieldSchema) (d : JsonValue)
  | strPipeNum

/-- An object schema: declared field names with their field schemas. -/
def ObjectSchema := List (String × FieldSchema)

/-- First value bound to a key in a field list (object field lookup). -/
def lookupField : List (String × JsonValue) → String → Option JsonValue
  | [], _ => none
  | (k, v) :: rest, n => if k = n then some v else lookupField rest n

/-- Modelled from the spec: validate one field's (possibly absent) raw value
against its field schema; an absent optional field stays absent, an absent
defaulted field yields the declared default. -/
def validateField : FieldSchema → Option JsonValue → Except String (Option JsonValue)
  | .str, some (JsonValue.str s) => .ok (some (JsonValue.str s))
  | .str, some _ => .error "Expected string"
  | .num, some (JsonValue.num n) => .ok (some (JsonValue.num n))
  | .num, some _ => .error "Expected number"
  | .boolS, some (JsonValue.boolean b) => .ok (some (JsonValue.boolean b))
  | .boolS, some _ => .error "Expected boolean"
  | .enumS cs, some (JsonValue.str s) =>
      if s ∈ cs then .ok (some (JsonValue.str s)) else .error "Invalid enum value"
  | .enumS _, some _ => .error "Invalid enum value"
  | .strPipeNum, some (JsonValue.str s) =>
      match s.toInt? with
      | some n => .ok (some (JsonValue.num n))
      | none => .error "Expected numeric string"
  | .strPipeNum, some _ => .error "Expected numeric string"
  | .optionalS _, none => .ok none
  | .optionalS s, some v => validateField s (some v)
  | .withDefault _ d, none => .ok (some d)
  | .withDefault s _, some v => validateField s (some v)
  | _, none => .error "Required"

/-- Validate every declared field of the schema against the input fields,
collecting validated output fields and per-field errors. -/
def parseFields : ObjectSchema → List (String × JsonValue) →
    List (String × JsonValue) × List FieldError
  | [], _ => ([], [])
  | (k, fs) :: rest, input =>
    let tail := parseFields rest input
    match validateField fs (lookupField input k) with
    | .ok none => tail
    | .ok (some v) => ((k, v) :: tail.1, tail.2)
    | .error msg => (tail.1, ⟨k, msg⟩ :: tail.2)

/-- The field names an object schema declares. -/
def declaredKeys (s : ObjectSchema) : List String :=
  s.map Prod.fst

/-- Modelled from the spec: passing params the schema does not declare is a
validation failure, not a silent ignore (section 4.2 edge cases). -/
def unknownKeyErrors (s : ObjectSchema) : List (String × JsonValue) → List FieldError
  | [] => []
  | (k, _) :: rest =>
    if k ∈ declaredKeys s then unknownKeyErrors s rest
    else ⟨k, "unrecognized key"⟩ :: unknownKeyErrors s rest

/-- Validate an input field list against an object schema: declared fields
are validated in schema order, undeclared input keys are errors. -/
def parseObjectSchema (s : ObjectSchema) (input : List (String × JsonValue)) :
    Except (List FieldError) (List (String × JsonValue)) :=
  let outcome := parseFields s input
  let allErrs := outcome.2 ++ unknownKeyErrors s input
  if allErrs = [] then .ok outcome.1 else .error allErrs

/-- Modelled from the spec: the SchemaValidator contract — parse an arbitrary
raw value against an object schema, returning the validated value or a
structured, enumerable list of field errors. -/
def validateSchema (s : ObjectSchema) (raw : JsonValue) : Except (List FieldError) JsonValue :=
  match raw with
  | .obj fields => (parseObjectSchema s fields).map JsonValue.obj
  | _ => .error [⟨"", "Expected object"⟩]

/-- Modelled from the spec: the registry configuration consumed once at
startup (defaultBaseUrl, alias-to-URL mapping, error formatting flag). -/
structure RouteRegistryConfig where
  defaultBaseUrl : String
  additionalBaseUrls : List (String × String)
  formattedValidationErrors : Bool

/-- Modelled from the spec: the compiled artifact for one named route. The
params and searchParams fields mirror the runtime properties the docs call
type-inference-only: they never carry validated values. -/
structure RouteDefinition where
  name : String
  fn : JsonValue → String
  paramsSchema : ObjectSchema
  searchParamsSchema : Option ObjectSchema
  baseUrl : Option String
  params : Option JsonValue
  searchParams : Option JsonValue

/-- Modelled from the spec: construction/registration-time misuse errors. -/
inductive ConfigError where
  | duplicateRouteName (name : String)
  | invalidBaseUrl (url : String)
  | missingBodySchema
  | missingResponseSchema
deriving DecidableEq

/-- Modelled from the spec: resolution-time misuse of an unregistered,
non-URL base reference. -/
inductive BaseUrlError where
  | unknownBaseUrl (ref : String)
deriving DecidableEq

/-- Modelled from the spec: the process-wide registry state — its
configuration plus the route definitions registered so far. -/
structure Registry where
  config : RouteRegistryConfig
  routes : List RouteDefinition

/-- Modelled from the spec: register fails with DuplicateRouteNameError when
the name already exists in this registry; otherwise it stores and returns
the definition. -/
def register (reg : Registry) (d : RouteDefinition) :
    Except ConfigError (Registry × RouteDefinition) :=
  if reg.routes.any (fun r => r.name = d.name) then
    .error (ConfigError.duplicateRouteName d.name)
  else
    .ok ({ reg with routes := reg.routes ++ [d] }, d)

/-- The declarative arguments the documented createRoute call accepts. -/
structure RouteArgs where
  name : String
  fn : JsonValue → String
  paramsSchema : ObjectSchema
  searchParamsSchema : Option ObjectSchema := none
  baseUrl : Option String := none

/-- Compile createRoute arguments into a route definition; the runtime
params and searchParams slots are never populated with values. -/
def toDefinition (args : RouteArgs) : RouteDefinition :=
  { name := args.name
    fn := args.fn
    paramsSchema := args.paramsSchema
    searchParamsSchema := args.searchParamsSchema
    baseUrl := args.baseUrl
    params := none
    searchParams := none }

/-- Modelled from the spec: createRoute registers the compiled definition in
the owning registry and hands it back. -/
def createRoute (reg : Registry) (args : RouteArgs) :
    Except ConfigError (Registry × RouteDefinition) :=
  register reg (toDefinition args)

/-- A base reference is treated as a literal URL when it is absolute. -/
def isAbsoluteUrl (s : String) : Bool :=
  s.startsWith "http://" || s.startsWith "https://"

/-- First URL bound to an alias in the configured alias mapping. -/
def lookupAlias : List (String × String) → String → Option String
  | [], _ => none
  | (k, v) :: rest, n => if k = n then some v else lookupAlias rest n

/-- Modelled from the spec: resolve a base reference — a configured alias
resolves to its URL, a literal absolute URL passes through, anything else
fails with UnknownBaseUrlError; no reference means the default base URL. -/
def resolveBaseUrl (cfg : RouteRegistryConfig) (ref : Option String) :
    Except BaseUrlError String :=
  match ref with
  | none => .ok cfg.defaultBaseUrl
  | some r =>
    match lookupAlias cfg.additionalBaseUrls r with
    | some url => .ok url
    | none => if isAbsoluteUrl r then .ok r else .error (BaseUrlError.unknownBaseUrl r)

/-- Concatenate the resolved base URL with the templated path; the root
default base contributes nothing beyond the path itself. -/
def joinUrl (base path : String) : String :=
  if base = "/" then path else base ++ path

/-- Rendering of a scalar JSON value into a URL fragment. -/
def jsonScalarToString : JsonValue → String
  | .str s => s
  | .num n => toString n
  | .boolean b => toString b
  | _ => ""

/-- Path-template helper: the rendered value of one field of a params
object, as the documented template functions interpolate it. -/
def fieldStr (p : JsonValue) (k : String) : String :=
  match p with
  | .obj fields =>
    match lookupField fields k with
    | some v => jsonScalarToString v
    | none => ""
  | _ => ""

/-- Serialize validated search-param fields onto the query string with a
stable, order-preserving key enumeration. -/
def serializeQuery : List (String × JsonValue) → String
  | [] => ""
  | (k, v) :: rest =>
    "&" ++ k ++ "=" ++ jsonScalarToString v ++ serializeQuery rest

/-- The full query-string suffix: empty when there are no fields. -/
def querySuffix (fields : List (String × JsonValue)) : String :=
  match fields with
  | [] => ""
  | (k, v) :: rest => "?" ++ k ++ "=" ++ jsonScalarToString v ++ serializeQuery rest

/-- Errors build can signal: params mismatch, search-params mismatch, or a
base-URL resolution failure. -/
inductive BuildError where
  | params (errors : List FieldError)
  | search (errors : List FieldError)
  | base (e : BaseUrlError)

/-- Modelled from the spec: build validates params (and search params when a
schema exists), resolves the base URL, and concatenates base, templated
path and serialized query string (section 4.2). -/
def buildCore (cfg : RouteRegistryConfig) (route : RouteDefinition)
    (paramsIn : JsonValue) (searchIn : Option JsonValue) : Outcome BuildError String :=
  match validateSchema route.paramsSchema paramsIn with
  | .error e => .failure (BuildError.params e)
  | .ok validated =>
    match resolveBaseUrl cfg route.baseUrl with
    | .error e => .failure (BuildError.base e)
    | .ok base =>
      match searchIn, route.searchParamsSchema with
      | some sp, some ss =>
        match validateSchema ss sp with
        | .error e => .failure (BuildError.search e)
        | .ok (JsonValue.obj fields) =>
          .success (joinUrl base (route.fn validated) ++ querySuffix fields)
        | .ok _ => .success (joinUrl base (route.fn validated))
      | _, _ => .success (joinUrl base (route.fn validated))

/-- The single validation core shared by both parseParams call modes. -/
def parseParamsCore (route : RouteDefinition) (raw : JsonValue) :
    Outcome (List FieldError) JsonValue :=
  match validateSchema route.paramsSchema raw with
  | .ok v => .success v
  | .error e => .failure e

/-- Safe mode: the Outcome of the shared core, unchanged. -/
def parseParamsSafe (route : RouteDefinition) (raw : JsonValue) :
    Outcome (List FieldError) JsonValue :=
  parseParamsCore route raw

/-- Throwing mode: a thin dispatch unwrapping the same core's Outcome. -/
def parseParams (route : RouteDefinition) (raw : JsonValue) :
    Except (List FieldError) JsonValue :=
  (parseParamsCore route raw).toExcept

/-- The single validation core shared by both parseSearchParams call modes;
a route without a search-params schema accepts any input as the empty
object. -/
def parseSearchParamsCore (route : RouteDefinition) (raw : JsonValue) :
    Outcome (List FieldError) JsonValue :=
  match route.searchParamsSchema with
  | none => .success (JsonValue.obj [])
  | some s =>
    match validateSchema s raw with
    | .ok v => .success v
    | .error e => .failure e

/-- Safe mode: the Outcome of the shared core, unchanged. -/
def parseSearchParamsSafe (route : RouteDefinition) (raw : JsonValue) :
    Outcome (List FieldError) JsonValue :=
  parseSearchParamsCore route raw

/-- Throwing mode: a thin dispatch unwrapping the same core's Outcome. -/
def parseSearchParams (route : RouteDefinition) (raw : JsonValue) :
    Except (List FieldError) JsonValue :=
  (parseSearchParamsCore route raw).toExcept

/-- HTTP methods the endpoint wrapper accepts. -/
inductive HttpMethod where
  | GET
  | POST
  | PUT
  | PATCH
  | DELETE
deriving DecidableEq

/-- Modelled from the spec: the methods that require a request body. -/
def requiresBody : HttpMethod → Bool
  | .POST => true
  | .PUT => true
  | .PATCH => true
  | _ => false

/-- The declarative arguments the documented createEndPoint call accepts. -/
structure EndpointArgs where
  httpMethod : HttpMethod
  path : RouteDefinition
  bodySchema : Option ObjectSchema := none
  responseSchema : Option ObjectSchema := none
  safeResponse : Bool := false

/-- The documented createEndPoint options object. -/
structure EndpointOptions where
  prettierValidationError : Bool := false
  overrideStatusCodeErrors : List (Nat × (Nat → String → String)) := []

/-- A constructed endpoint: a route bound to HTTP semantics and an
error-override policy. -/
structure Endpoint where
  httpMethod : HttpMethod
  path : RouteDefinition
  bodySchema : Option ObjectSchema
  responseSchema : Option ObjectSchema
  safeResponse : Bool
  prettierValidationError : Bool
  errorOverrides : List (Nat × (Nat → String → String))

/-- Modelled from the spec: createEndPoint fails fast at construction when a
body-requiring method has no body schema, or when response validation is
requested without a response schema (section 4.3). -/
def createEndPoint (args : EndpointArgs) (opts : EndpointOptions) :
    Except ConfigError Endpoint :=
  if requiresBody args.httpMethod && args.bodySchema.isNone then
    .error ConfigError.missingBodySchema
  else if args.safeResponse && args.responseSchema.isNone then
    .error ConfigError.missingResponseSchema
  else
    .ok { httpMethod := args.httpMethod
          path := args.path
          bodySchema := args.bodySchema
          responseSchema := args.responseSchema
          safeResponse := args.safeResponse
          prettierValidationError := opts.prettierValidationError
          errorOverrides := opts.overrideStatusCodeErrors }

/-- Errors an endpoint invocation can signal. -/
inductive RequestError where
  | build (e : BuildError)
  | body (errors : List FieldError)
  | httpStatus (code : Nat) (message : String)
  | response (errors : List FieldError)

/-- Modelled from the spec: the generic default message for a non-2xx
status, used when no override is configured. -/
def defaultErrorMessage (status : Nat) : String :=
  "Request failed with status code " ++ toString status

/-- First handler bound to a status code in the override mapping. -/
def lookupOverride : List (Nat × (Nat → String → String)) → Nat →
    Option (Nat → String → String)
  | [], _ => none
  | (c, h) :: rest, status => if c = status then some h else lookupOverride rest status

/-- Modelled from the spec: resolve the user message for a non-2xx status —
a configured override handler is called with the status code and the
generic default message, otherwise the generic default is used. -/
def resolveErrorMessage (ov : List (Nat × (Nat → String → String))) (status : Nat) : String :=
  match lookupOverride ov status with
  | some handler => handler status (defaultErrorMessage status)
  | none => defaultErrorMessage status

/-- Whether a status code is in the 2xx success range. -/
def is2xx (status : Nat) : Bool :=
  200 ≤ status && status < 300

/-- Modelled from the spec: steps 5 and 6 of the invocation contract — a
non-2xx status becomes an HttpStatusError carrying the resolved message; a
2xx response body is validated against the response schema when response
validation is on, else returned as-is. -/
def handleResponse (ep : Endpoint) (status : Nat) (respBody : JsonValue) :
    Outcome RequestError JsonValue :=
  if is2xx status then
    if ep.safeResponse then
      match ep.responseSchema with
      | some s =>
        match validateSchema s respBody with
        | .ok v => .success v
        | .error e => .failure (RequestError.response e)
      | none => .success respBody
    else
      .success respBody
  else
    .failure (RequestError.httpStatus status (resolveErrorMessage ep.errorOverrides status))

/-- Modelled from the spec: the single execution core of an endpoint call —
resolve the URL via build, validate the body when a body schema is bound,
then classify the executor's response; the executor's answer (status and
parsed body) is passed in as data, the single suspension point. -/
def requestCore (cfg : RouteRegistryConfig) (ep : Endpoint) (paramsIn : JsonValue)
    (searchIn : Option JsonValue) (bodyIn : Option JsonValue)
    (status : Nat) (respBody : JsonValue) : Outcome RequestError JsonValue :=
  match buildCore cfg ep.path paramsIn searchIn with
  | .failure e => .failure (RequestError.build e)
  | .success _ =>
    match ep.bodySchema with
    | some bs =>
      match bodyIn with
      | none => .failure (RequestError.body [⟨"", "Required"⟩])
      | some b =>
        match validateSchema bs b with
        | .error e => .failure (RequestError.body e)
        | .ok _ => handleResponse ep status respBody
    | none => handleResponse ep status respBody

/-- Safe mode: the Outcome of the shared request core, unchanged. -/
def requestSafe (cfg : RouteRegistryConfig) (ep : Endpoint) (paramsIn : JsonValue)
    (searchIn : Option JsonValue) (bodyIn : Option JsonValue)
    (status : Nat) (respBody : JsonValue) : Outcome RequestError JsonValue :=
  requestCore cfg ep paramsIn searchIn bodyIn status respBody

/-- Throwing mode: a thin dispatch unwrapping the same core's Outcome. -/
def request (cfg : RouteRegistryConfig) (ep : Endpoint) (paramsIn : JsonValue)
    (searchIn : Option JsonValue) (bodyIn : Option JsonValue)
    (status : Nat) (respBody : JsonValue) : Except RequestError JsonValue :=
  (requestCore cfg ep paramsIn searchIn bodyIn status respBody).toExcept

/-- The registry configuration used across the documented examples: APP and
API aliases over the root default base. -/
def exampleConfig : RouteRegistryConfig :=
  { defaultBaseUrl := "/"
    additionalBaseUrls :=
      [("APP", "https://app.example.com"), ("API", "https://api.example.com")]
    formattedValidationErrors := true }

/-- The params schema of the documented workspace route. -/
def workspaceParamsSchema : ObjectSchema :=
  [("projectId", FieldSchema.str)]

/-- The search-params schema of the documented workspace route: an enum with
optional plus declared default, a string piped to a number, and an
optional string. -/
def workspaceSearchParamsSchema : ObjectSchema :=
  [("sortBy", FieldSchema.withDefault (FieldSchema.optionalS
      (FieldSchema.enumS ["asc", "desc"])) (JsonValue.str "asc")),
   ("limit", FieldSchema.optionalS FieldSchema.strPipeNum),
   ("query", FieldSchema.optionalS FieldSchema.str)]

/-- The documented WorkspaceRoute definition. -/
def WorkspaceRoute : RouteDefinition :=
  toDefinition
    { name := "WorkspaceRoute"
      fn := fun p => "/workspaces/" ++ fieldStr p "projectId"
      paramsSchema := workspaceParamsSchema
      searchParamsSchema := some workspaceSearchParamsSchema }

/-- The documented HomePageRoute definition: an empty params schema. -/
def HomePageRoute : RouteDefinition :=
  toDefinition
    { name := "home-page"
      fn := fun _ => "/"
      paramsSchema := [] }

/-- The getTodo route of the spec's base-URL alias scenario. -/
def getTodoRoute : RouteDefinition :=
  toDefinition
    { name := "getTodo"
      fn := fun p => "/todos/" ++ fieldStr p "id"
      paramsSchema := [("id", FieldSchema.num)]
      baseUrl := some "API" }

/-- An endpoint with the documented 404 override returning a custom
message. -/
def exampleEndpoint : Endpoint :=
  { httpMethod := HttpMethod.GET
    path := getTodoRoute
    bodySchema := none
    responseSchema := none
    safeResponse := false
    prettierValidationError := true
    errorOverrides := [(404, fun _ _ => "custom message")] }

/-- Agreement of the two call modes on one input: either both fail with the
same error payload, or both return the same value. -/
def modesAgree (o : Outcome ε α) (x : Except ε α) : Prop :=
  (∃ e, o = .failure e ∧ x = .error e) ∨ (∃ v, o = .success v ∧ x = .ok v)

/-- Unwrapping an Outcome always agrees with the Outcome itself. -/
theorem modesAgree_toExcept (o : Outcome ε α) : modesAgree o o.toExcept := by
  cases o with
  | success v => exact Or.inr ⟨v, rfl, rfl⟩
  | failure e => exact Or.inl ⟨e, rfl, rfl⟩

/-- Pairs of field names and string values, as an object's field list. -/
def stringParams (pairs : List (String × String)) : List (String × JsonValue) :=
  pairs.map fun p => (p.1, JsonValue.str p.2)

/-- The object schema declaring each given name as a string field. -/
def stringSchema (names : List String) : ObjectSchema :=
  names.map fun n => (n, FieldSchema.str)

/-- In an object built from pairs with no duplicate keys, looking up any
pair's key returns that pair's string value. -/
theorem lookup_stringParams (pairs : List (String × String))
    (hnd : (pairs.map Prod.fst).Nodup) :
    ∀ p ∈ pairs, lookupField (stringParams pairs) p.1 = some (JsonValue.str p.2) := by
  induction pairs with
  | nil => intro p hp; exact absurd hp (List.not_mem_nil p)
  | cons hd tl ih =>
    intro p hp
    rw [List.map_cons, List.nodup_cons] at hnd
    rcases List.mem_cons.mp hp with h | h
    · subst h
      simp [stringParams, lookupField]
    · have hne : hd.1 ≠ p.1 := by
        intro he
        exact hnd.1 (he ▸ List.mem_map_of_mem Prod.fst h)
      have htl := ih hnd.2 p h
      simpa [stringParams, lookupField, hne] using htl

/-- Parsing an all-string schema against an input whose lookups return the
expected string values validates every field and produces no errors. -/
theorem parseFields_stringSchema (pairs : List (String × String))
    (input : List (String × JsonValue))
    (h : ∀ p ∈ pairs, lookupField input p.1 = some (JsonValue.str p.2)) :
    parseFields (stringSchema (pairs.map Prod.fst)) input = (stringParams pairs, []) := by
  induction pairs with
  | nil => simp [stringSchema, parseFields, stringParams]
  | cons hd tl ih =>
    have hhd := h hd (List.mem_cons_self hd tl)
    have htl := ih fun p hp => h p (List.mem_cons_of_mem hd hp)
    simp [stringSchema, stringParams, parseFields, hhd, validateField] at htl ⊢
    simp [htl]

/-- When every input key is declared by the schema, there are no
unknown-key errors. -/
theorem unknownKeyErrors_subset (s : ObjectSchema) (input : List (String × JsonValue))
    (h : ∀ p ∈ input, p.1 ∈ declaredKeys s) :
    unknownKeyErrors s input = [] := by
  induction input with
  | nil => rfl
  | cons hd tl ih =>
    obtain ⟨k, v⟩ := hd
    have hk : k ∈ declaredKeys s := h (k, v) (List.mem_cons_self (k, v) tl)
    have htl := ih fun p hp => h p (List.mem_cons_of_mem (k, v) hp)
    simp [unknownKeyErrors, hk, htl]

/-- The keys an all-string schema declares are exactly the given names. -/
theorem declaredKeys_stringSchema (names : List String) :
    declaredKeys (stringSchema names) = names := by
  induction names with
  | nil => rfl
  | cons hd tl ih => simp [declaredKeys, stringSchema] at ih ⊢; exact ih

/-- Validating an object of string fields with no duplicate keys against
its own all-string schema returns the object unchanged. -/
theorem validateSchema_string_roundtrip (pairs : List (String × String))
    (hnd : (pairs.map Prod.fst).Nodup) :
    validateSchema (stringSchema (pairs.map Prod.fst)) (JsonValue.obj (stringParams pairs))
      = .ok (JsonValue.obj (stringParams pairs)) := by
  have h1 := parseFields_stringSchema pairs (stringParams pairs) (lookup_stringParams pairs hnd)
  have h2 : unknownKeyErrors (stringSchema (pairs.map Prod.fst)) (stringParams pairs) = [] := by
    apply unknownKeyErrors_subset
    intro p hp
    rw [declaredKeys_stringSchema]
    obtain ⟨q, hq, hqp⟩ := List.mem_map.mp hp
    exact hqp ▸ List.mem_map_of_mem Prod.fst hq
  simp [validateSchema, parseObjectSchema, h1, h2, Except.map]

/-- With an empty schema every input key is unknown, so each input field
contributes one unrecognized-key error. -/
theorem unknownKeyErrors_nil_schema (input : List (String × JsonValue)) :
    unknownKeyErrors [] input = input.map fun p => ⟨p.1, "unrecognized key"⟩ := by
  induction input with
  | nil => rfl
  | cons hd tl ih =>
    obtain ⟨k, v⟩ := hd
    simp [unknownKeyErrors, declaredKeys, ih]

/-- A first registration target for the duplicate-name scenario. -/
def dupRouteOne : RouteDefinition :=
  toDefinition { name := "home-page", fn := fun _ => "/", paramsSchema := [] }

/-- A second route with the same name but a different schema and path. -/
def dupRouteTwo : RouteDefinition :=
  toDefinition
    { name := "home-page"
      fn := fun _ => "/other"
      paramsSchema := [("x", FieldSchema.str)] }

/-- The createRoute arguments of the documented home-page route. -/
def homeArgs : RouteArgs :=
  { name := "home-page", fn := fun _ => "/", paramsSchema := [] }

/-- An endpoint-construction argument set with a body-requiring method and
no body schema. -/
def postArgs : EndpointArgs :=
  { httpMethod := HttpMethod.POST, path := getTodoRoute }

/-- Claim C1: for every validation operation (parseParams,
parseSearchParams, endpoint request) and every input, the safe mode and
the throwing mode agree — on invalid input the throwing mode fails and the
safe mode returns the failure variant with the same error payload, on
valid input both return the same value; both are dispatches over one
shared core. -/
theorem safe_throwing_duality (route : RouteDefinition) (raw : JsonValue)
    (cfg : RouteRegistryConfig) (ep : Endpoint) (paramsIn : JsonValue)
    (searchIn bodyIn : Option JsonValue) (status : Nat) (respBody : JsonValue) :
    modesAgree (parseParamsSafe route raw) (parseParams route raw) ∧
    modesAgree (parseSearchParamsSafe route raw) (parseSearchParams route raw) ∧
    modesAgree (requestSafe cfg ep paramsIn searchIn bodyIn status respBody)
      (request cfg ep paramsIn searchIn bodyIn status respBody) :=
  ⟨modesAgree_toExcept _, modesAgree_toExcept _, modesAgree_toExcept _⟩

/-- Claim C2: for schemas whose fields are all strings, parsing the built
params round-trips to the same value; concretely, the workspace route
builds /workspaces/42 from projectId 42 and parsing those params returns
them unchanged. -/
theorem build_parse_roundtrip (pairs : List (String × String)) (route : RouteDefinition)
    (hnd : (pairs.map Prod.fst).Nodup)
    (hschema : route.paramsSchema = stringSchema (pairs.map Prod.fst)) :
    parseParams route (JsonValue.obj (stringParams pairs))
      = .ok (JsonValue.obj (stringParams pairs)) ∧
    buildCore exampleConfig WorkspaceRoute
      (JsonValue.obj [("projectId", JsonValue.str "42")]) none
      = .success "/workspaces/42" ∧
    parseParams WorkspaceRoute (JsonValue.obj [("projectId", JsonValue.str "42")])
      = .ok (JsonValue.obj [("projectId", JsonValue.str "42")]) := by
  refine ⟨?_, rfl, rfl⟩
  simp [parseParams, parseParamsCore, hschema,
    validateSchema_string_roundtrip pairs hnd, Outcome.toExcept]

/-- Witness for C2 at the documented workspace scenario. -/
theorem build_parse_roundtrip_witness :
    ([("projectId", "42")].map (Prod.fst (α := String) (β := String))).Nodup ∧
    WorkspaceRoute.paramsSchema
      = stringSchema ([("projectId", "42")].map (Prod.fst (α := String) (β := String))) ∧
    parseParams WorkspaceRoute (JsonValue.obj (stringParams [("projectId", "42")]))
      = .ok (JsonValue.obj (stringParams [("projectId", "42")])) :=
  ⟨by simp, rfl,
    (build_parse_roundtrip [("projectId", "42")] WorkspaceRoute (by simp) rfl).1⟩

/-- Claim C3: registering a fresh name stores and returns the definition;
registering a second route with an already-registered name always fails
with a duplicate-route-name ConfigError, whatever its schema. -/
theorem register_duplicate_name (reg : Registry) (d₁ d₂ : RouteDefinition)
    (hname : d₂.name = d₁.name)
    (hfresh : ∀ r ∈ reg.routes, r.name ≠ d₁.name) :
    ∃ reg₁, register reg d₁ = .ok (reg₁, d₁) ∧
      reg₁.routes = reg.routes ++ [d₁] ∧
      register reg₁ d₂ = .error (ConfigError.duplicateRouteName d₂.name) := by
  have hany : reg.routes.any (fun r => r.name = d₁.name) = false := by
    rw [List.any_eq_false]
    intro r hr
    simpa using hfresh r hr
  refine ⟨{ reg with routes := reg.routes ++ [d₁] }, ?_, rfl, ?_⟩
  · simp [register, hany]
  · have hdup : (reg.routes ++ [d₁]).any (fun r => r.name = d₂.name) = true := by
      rw [List.any_eq_true]
      exact ⟨d₁, by simp [hname]⟩
    simp [register, hdup]

/-- Witness for C3: an empty registry, then two same-name routes whose
schemas differ. -/
theorem register_duplicate_name_witness :
    dupRouteTwo.name = dupRouteOne.name ∧
    (∃ reg₁, register { config := exampleConfig, routes := [] } dupRouteOne
        = .ok (reg₁, dupRouteOne) ∧
      reg₁.routes = [] ++ [dupRouteOne] ∧
      register reg₁ dupRouteTwo
        = .error (ConfigError.duplicateRouteName dupRouteTwo.name)) :=
  ⟨rfl, register_duplicate_name { config := exampleConfig, routes := [] }
    dupRouteOne dupRouteTwo rfl (by intro r hr; exact absurd hr (List.not_mem_nil r))⟩

/-- Claim C4: constructing an endpoint with a body-requiring method (POST,
PUT or PATCH) and no bodySchema always fails at construction with a
ConfigError, before any request call exists. -/
theorem createEndPoint_missing_body (args : EndpointArgs) (opts : EndpointOptions)
    (hm : args.httpMethod = HttpMethod.POST ∨ args.httpMethod = HttpMethod.PUT ∨
      args.httpMethod = HttpMethod.PATCH)
    (hb : args.bodySchema = none) :
    createEndPoint args opts = .error ConfigError.missingBodySchema := by
  have hreq : requiresBody args.httpMethod = true := by
    rcases hm with h | h | h <;> rw [h] <;> rfl
  simp [createEndPoint, hreq, hb]

/-- Witness for C4: a POST endpoint with no body schema. -/
theorem createEndPoint_missing_body_witness :
    (postArgs.httpMethod = HttpMethod.POST ∨ postArgs.httpMethod = HttpMethod.PUT ∨
      postArgs.httpMethod = HttpMethod.PATCH) ∧
    postArgs.bodySchema = none ∧
    createEndPoint postArgs {} = .error ConfigError.missingBodySchema :=
  ⟨Or.inl rfl, rfl, createEndPoint_missing_body postArgs {} (Or.inl rfl) rfl⟩

/-- Claim C5: the declared optional-with-default search field yields the
default when the raw input omits it and the given value when present; the
default is applied inside parsing. -/
theorem search_default_applied :
    parseSearchParams WorkspaceRoute (JsonValue.obj [])
      = .ok (JsonValue.obj [("sortBy", JsonValue.str "asc")]) ∧
    parseSearchParamsSafe WorkspaceRoute (JsonValue.obj [])
      = .success (JsonValue.obj [("sortBy", JsonValue.str "asc")]) ∧
    parseSearchParams WorkspaceRoute (JsonValue.obj [("sortBy", JsonValue.str "desc")])
      = .ok (JsonValue.obj [("sortBy", JsonValue.str "desc")]) :=
  ⟨rfl, rfl, rfl⟩

/-- Claim C6: with an empty params schema, build of the empty object
succeeds, and build of any non-empty params object fails validation with
unrecognized-key errors — never a silent ignore. -/
theorem empty_params_schema_strict (cfg : RouteRegistryConfig) (route : RouteDefinition)
    (k : String) (v : JsonValue) (rest : List (String × JsonValue))
    (h₁ : route.paramsSchema = []) (h₂ : route.baseUrl = none) :
    buildCore cfg route (JsonValue.obj []) none
      = .success (joinUrl cfg.defaultBaseUrl (route.fn (JsonValue.obj []))) ∧
    buildCore cfg route (JsonValue.obj ((k, v) :: rest)) none
      = .failure (BuildError.params
          (⟨k, "unrecognized key"⟩ :: rest.map fun p => ⟨p.1, "unrecognized key"⟩)) := by
  constructor
  · simp [buildCore, h₁, h₂, validateSchema, parseObjectSchema, parseFields,
      unknownKeyErrors, resolveBaseUrl, Except.map]
  · simp [buildCore, h₁, h₂, validateSchema, parseObjectSchema, parseFields,
      unknownKeyErrors_nil_schema, resolveBaseUrl, Except.map]

/-- Witness for C6 at the documented home-page route. -/
theorem empty_params_schema_strict_witness :
    HomePageRoute.paramsSchema = [] ∧ HomePageRoute.baseUrl = none ∧
    buildCore exampleConfig HomePageRoute (JsonValue.obj []) none = .success "/" ∧
    buildCore exampleConfig HomePageRoute (JsonValue.obj [("extra", JsonValue.num 1)]) none
      = .failure (BuildError.params [⟨"extra", "unrecognized key"⟩]) :=
  ⟨rfl, rfl,
    (empty_params_schema_strict exampleConfig HomePageRoute "extra" (JsonValue.num 1) []
      rfl rfl).1,
    (empty_params_schema_strict exampleConfig HomePageRoute "extra" (JsonValue.num 1) []
      rfl rfl).2⟩

/-- Claim C7: on a non-2xx status, a configured override handler is called
with the status code and the default message and the HttpStatusError
carries exactly the handler's message; without an override the generic
default message is used. -/
theorem status_override_message (ep : Endpoint) (status : Nat) (respBody : JsonValue)
    (handler : Nat → String → String) (h2 : is2xx status = false) :
    (lookupOverride ep.errorOverrides status = some handler →
      handleResponse ep status respBody
        = .failure (RequestError.httpStatus status
            (handler status (defaultErrorMessage status)))) ∧
    (lookupOverride ep.errorOverrides status = none →
      handleResponse ep status respBody
        = .failure (RequestError.httpStatus status (defaultErrorMessage status))) := by
  constructor
  · intro hov
    simp [handleResponse, h2, resolveErrorMessage, hov]
  · intro hov
    simp [handleResponse, h2, resolveErrorMessage, hov]

/-- Witness for C7: the 404 override of the documented endpoint produces
the custom message, and 500 without an override gets the generic one. -/
theorem status_override_message_witness :
    is2xx 404 = false ∧
    handleResponse exampleEndpoint 404 JsonValue.null
      = .failure (RequestError.httpStatus 404 "custom message") ∧
    handleResponse exampleEndpoint 500 JsonValue.null
      = .failure (RequestError.httpStatus 500 "Request failed with status code 500") :=
  ⟨by decide,
    (status_override_message exampleEndpoint 404 JsonValue.null
      (fun _ _ => "custom message") (by decide)).1 rfl,
    (status_override_message exampleEndpoint 500 JsonValue.null
      (fun _ _ => "custom message") (by decide)).2 rfl⟩

/-- Claim C8: the API alias resolves to its configured absolute URL and is
concatenated with the templated path, so build of id 1 on the getTodo
route yields the expected absolute URL. -/
theorem alias_base_url_build :
    buildCore exampleConfig getTodoRoute (JsonValue.obj [("id", JsonValue.num 1)]) none
      = .success "https://api.example.com/todos/1" := rfl

/-- Claim C9: a route constructed without a searchParamsSchema parses any
raw input to the empty object successfully, in both safe and throwing
modes. -/
theorem no_search_schema_empty (route : RouteDefinition) (raw : JsonValue)
    (h : route.searchParamsSchema = none) :
    parseSearchParamsSafe route raw = .success (JsonValue.obj []) ∧
    parseSearchParams route raw = .ok (JsonValue.obj []) := by
  constructor <;>
    simp [parseSearchParamsSafe, parseSearchParams, parseSearchParamsCore, h,
      Outcome.toExcept]

/-- Witness for C9 at the home-page route on an arbitrary non-object
input. -/
theorem no_search_schema_empty_witness :
    HomePageRoute.searchParamsSchema = none ∧
    parseSearchParamsSafe HomePageRoute (JsonValue.num 5) = .success (JsonValue.obj []) ∧
    parseSearchParams HomePageRoute (JsonValue.num 5) = .ok (JsonValue.obj []) :=
  ⟨rfl, (no_search_schema_empty HomePageRoute (JsonValue.num 5) rfl).1,
    (no_search_schema_empty HomePageRoute (JsonValue.num 5) rfl).2⟩

/-- Claim C10: every route createRoute produces carries no runtime value in
its params and searchParams slots — they exist for type inference only;
values come only from the parse and build operations. -/
theorem inference_only_params (reg : Registry) (args : RouteArgs)
    (reg₁ : Registry) (d : RouteDefinition)
    (h : createRoute reg args = .ok (reg₁, d)) :
    d.params = none ∧ d.searchParams = none := by
  simp only [createRoute, register] at h
  split at h
  · exact absurd h (by simp)
  · simp only [Except.ok.injEq, Prod.mk.injEq] at h
    rw [← h.2]
    exact ⟨rfl, rfl⟩

/-- Witness for C10: the home-page route registered into a fresh registry
has empty params and searchParams slots. -/
theorem inference_only_params_witness :
    createRoute { config := exampleConfig, routes := [] } homeArgs
      = .ok ({ config := exampleConfig, routes := [toDefinition homeArgs] },
          toDefinition homeArgs) ∧
    (toDefinition homeArgs).params = none ∧ (toDefinition homeArgs).searchParams = none :=
  ⟨rfl, inference_only_params { config := exampleConfig, routes := [] } homeArgs
    { config := exampleConfig, routes := [toDefinition homeArgs] }
    (toDefinition homeArgs) rfl⟩

end Tempeh
